import Mathlib

/-!
# Verification of `scripts/git_tools.py`

Shallow embedding of the post-generation bootstrap script of the
cookiecutter-data-science template.  The script shells out to external
tools; we model the outside world by an oracle that assigns to the n-th
subprocess invocation an outcome (a normal exit with a code, or an
execution failure such as the binary not being found).  The script state
further records the console output lines, the list of invoked commands
(in order), and the content of the `.pre-commit-config.yaml` file
(`none` = absent).

Python's `raise SystemExit(int)` terminates the process with that exit
code; `raise SystemExit(str)` prints the string and exits with code 1;
an uncaught exception (e.g. `FileNotFoundError` escaping
`subprocess.run` inside `run`) terminates with code 1.  These three
abrupt terminations are the constructors of `ExitKind`.
-/

namespace GitTools

/-- Outcome of one subprocess invocation: the child ran and exited with
`code`, or the invocation itself failed (binary not found, etc.). -/
inductive Outcome where
  | exit (code : Nat)
  | execFailure
deriving DecidableEq, Repr

/-- Script state: subprocess oracle, number of invocations so far,
console output lines, invoked commands in order, and the content of
`.pre-commit-config.yaml` (`none` if the file is absent). -/
structure St where
  oracle : Nat → Outcome
  idx : Nat
  output : List String
  cmds : List (List String)
  cfg : Option String

/-- How the process terminates abruptly: `SystemExit(n)` with an integer
exit code, `SystemExit(s)` with a message (process exit code 1), or an
uncaught exception (process exit code 1). -/
inductive ExitKind where
  | code (n : Nat)
  | msg (s : String)
  | exc
deriving DecidableEq, Repr

/-- Result of running a script fragment: normal return of a value, or
abrupt process termination.  Both carry the state reached, so the
console output and the command trace at the moment of exit are
observable. -/
inductive Res (α : Type) where
  | ok (a : α) (st : St)
  | exit (e : ExitKind) (st : St)

/-- A script fragment: a state transformer that may terminate the
process. -/
def M (α : Type) := St → Res α

def M.pure {α : Type} (a : α) : M α := fun st => .ok a st

def M.bind {α β : Type} (x : M α) (f : α → M β) : M β := fun st =>
  match x st with
  | .ok a st₁ => f a st₁
  | .exit e st₁ => .exit e st₁

/-- Model of `print(s)`: append a line to the console output. -/
def pr (s : String) : M Unit := fun st =>
  .ok () { st with output := st.output ++ [s] }

/-- Model of `subprocess.run(cmd, ...)`: consult the oracle for the
outcome of the next invocation, recording the command in the trace. -/
def subproc (cmd : List String) : M Outcome := fun st =>
  .ok (st.oracle st.idx) { st with idx := st.idx + 1, cmds := st.cmds ++ [cmd] }

/-- Model of `raise SystemExit(...)` (or of an uncaught exception
propagating out of the script). -/
def raiseSystemExit {α : Type} (e : ExitKind) : M α := fun st => .exit e st

/-- Translation of `run(cmd, check)` from git_tools.py:
```
def run(cmd, check=True):
    print(">>>", " ".join(cmd))
    p = subprocess.run(cmd, check=False)
    if check and p.returncode != 0:
        raise SystemExit(p.returncode)
    return p.returncode
```
If the binary cannot be executed, `subprocess.run` raises
`FileNotFoundError`, which propagates uncaught (`ExitKind.exc`). -/
def run (cmd : List String) (check : Bool) : M Nat :=
  M.bind (pr (">>> " ++ String.intercalate " " cmd)) fun _ =>
  M.bind (subproc cmd) fun o =>
  match o with
  | .execFailure => raiseSystemExit .exc
  | .exit c => if check = true ∧ c ≠ 0 then raiseSystemExit (.code c) else M.pure c

/-- Translation of `has_cmd(cmd)` from git_tools.py:
```
def has_cmd(cmd):
    try:
        subprocess.run(cmd, stdout=DEVNULL, stderr=DEVNULL, check=True)
        return True
    except Exception:
        return False
```
With `check=True`, `subprocess.run` raises `CalledProcessError` on a
non-zero exit, and a failed invocation raises `FileNotFoundError`; both
are caught by `except Exception`, so the probe returns `false` in
either case and never propagates. -/
def has_cmd (cmd : List String) : M Bool :=
  M.bind (subproc cmd) fun o =>
  match o with
  | .exit 0 => M.pure true
  | .exit (_ + 1) => M.pure false
  | .execFailure => M.pure false

/-- Translation of `pip_install(pkg)`: `run([sys.executable, "-m",
"pip", "install", "-U", pkg], check=True)`.  The parameter `pyexe`
stands for `sys.executable`. -/
def pip_install (pyexe : String) (pkg : String) : M Unit :=
  M.bind (run [pyexe, "-m", "pip", "install", "-U", pkg] true) fun _ => M.pure ()

/-- The `needed` list of `ensure_pip_packages`: tool name paired with
its availability probe. -/
def needed : List (String × List String) :=
  [("pre-commit", ["pre-commit", "--version"]),
   ("nbstripout", ["python", "-c", "import nbstripout"]),
   ("nbautoexport", ["nbautoexport", "--help"])]

/-- One iteration of the `for pkg, probe in needed` loop:
```
ok = has_cmd(probe) if probe[0] != "python" else has_cmd([sys.executable, "-c", probe[2]])
if ok:
    print(f">>> {pkg} already available")
else:
    print(f">>> Installing {pkg}")
    pip_install(pkg)
``` -/
def ensureStep (pyexe : String) (pkg : String) (probe : List String) : M Unit :=
  M.bind (if probe.headD "" ≠ "python" then has_cmd probe
          else has_cmd [pyexe, "-c", probe.getD 2 ""]) fun ok =>
  if ok then pr (">>> " ++ pkg ++ " already available")
  else M.bind (pr (">>> Installing " ++ pkg)) fun _ => pip_install pyexe pkg

/-- The `for` loop of `ensure_pip_packages` over the `needed` list. -/
def ensureLoop (pyexe : String) : List (String × List String) → M Unit
  | [] => M.pure ()
  | (pkg, probe) :: rest =>
      M.bind (ensureStep pyexe pkg probe) fun _ => ensureLoop pyexe rest

/-- Translation of `ensure_pip_packages()`: best-effort pip
self-upgrade, then the loop over `needed`. -/
def ensure_pip_packages (pyexe : String) : M Unit :=
  M.bind (run [pyexe, "-m", "pip", "install", "-U", "pip"] false) fun _ =>
  ensureLoop pyexe needed

/-- Translation of `ensure_git_repo()`:
```
if not has_cmd(["git", "--version"]):
    raise SystemExit("ERROR: git is not installed or not in PATH.")
if has_cmd(["git", "rev-parse", "--is-inside-work-tree"]):
    print(">>> git already initialized")
else:
    run(["git", "init"], check=True)
``` -/
def ensure_git_repo : M Unit :=
  M.bind (has_cmd ["git", "--version"]) fun gitOk =>
  if gitOk = false then
    raiseSystemExit (.msg "ERROR: git is not installed or not in PATH.")
  else
    M.bind (has_cmd ["git", "rev-parse", "--is-inside-work-tree"]) fun inTree =>
    if inTree then pr ">>> git already initialized"
    else M.bind (run ["git", "init"] true) fun _ => M.pure ()

/-- The literal payload written by `write_precommit_config`, built as in
the source by joining the lines with a newline, the last element being
the empty string (hence the trailing newline). -/
def precommitConfigText : String :=
  String.intercalate "\n"
    ["repos:",
     "  - repo: https://github.com/kynan/nbstripout",
     "    rev: 0.6.1",
     "    hooks:",
     "      - id: nbstripout",
     ""]

/-- Model of `Path(".pre-commit-config.yaml").exists()`. -/
def cfgExistsM : M Bool := fun st => .ok st.cfg.isSome st

/-- Model of `cfg.write_text(s, encoding="utf-8")`. -/
def writeCfg (s : String) : M Unit := fun st => .ok () { st with cfg := some s }

/-- Translation of `write_precommit_config()`:
```
cfg = Path(".pre-commit-config.yaml")
if cfg.exists():
    print(">>> .pre-commit-config.yaml already exists")
    return
cfg.write_text("\n".join([...]), encoding="utf-8")
print(">>> wrote .pre-commit-config.yaml")
``` -/
def write_precommit_config : M Unit :=
  M.bind cfgExistsM fun ex =>
  if ex then pr ">>> .pre-commit-config.yaml already exists"
  else
    M.bind (writeCfg precommitConfigText) fun _ =>
    pr ">>> wrote .pre-commit-config.yaml"

/-- Translation of `install_hooks_and_configure()`:
```
if has_cmd(["pre-commit", "--version"]):
    run(["pre-commit", "install"], check=False)
else:
    print(">>> pre-commit still not available, skipping install")
if has_cmd(["nbautoexport", "--help"]):
    run(["nbautoexport", "configure", "-f", "script", "notebooks"], check=False)
else:
    print(">>> nbautoexport still not available, skipping configure")
``` -/
def install_hooks_and_configure : M Unit :=
  M.bind (has_cmd ["pre-commit", "--version"]) fun pcOk =>
  M.bind (if pcOk then M.bind (run ["pre-commit", "install"] false) fun _ => M.pure ()
          else pr ">>> pre-commit still not available, skipping install") fun _ =>
  M.bind (has_cmd ["nbautoexport", "--help"]) fun naOk =>
  if naOk then
    M.bind (run ["nbautoexport", "configure", "-f", "script", "notebooks"] false) fun _ =>
    M.pure ()
  else pr ">>> nbautoexport still not available, skipping configure"

/-- Translation of `main()`. -/
def main (pyexe : String) : M Unit :=
  M.bind (ensure_pip_packages pyexe) fun _ =>
  M.bind ensure_git_repo fun _ =>
  M.bind write_precommit_config fun _ =>
  M.bind install_hooks_and_configure fun _ =>
  pr ">>> git_tools done"

/-- Fresh script state for a given world. -/
def initSt (oracle : Nat → Outcome) (cfg : Option String) : St :=
  { oracle := oracle, idx := 0, output := [], cmds := [], cfg := cfg }

/-- Running the script (`python git_tools.py`) against a world. -/
def runScript (pyexe : String) (oracle : Nat → Outcome) (cfg : Option String) : Res Unit :=
  main pyexe (initSt oracle cfg)

/-- The state reached by a script fragment, whether it returned or
terminated the process. -/
def Res.state {α : Type} : Res α → St
  | .ok _ st => st
  | .exit _ st => st

/-- The process exit code: 0 on normal completion, the carried code for
`SystemExit(int)`, 1 for `SystemExit(str)` and for an uncaught
exception. -/
def exitCodeOf : Res Unit → Nat
  | .ok _ _ => 0
  | .exit (.code n) _ => n
  | .exit (.msg _) _ => 1
  | .exit .exc _ => 1

/-- Predicate for a normal return (as opposed to process
termination). -/
def Res.isOk {α : Type} : Res α → Bool
  | .ok _ _ => true
  | .exit _ _ => false

/-- Oracle for a world where the three tool probes and `git --version`
succeed, `git rev-parse --is-inside-work-tree` fails (not yet a
repository), and `git init` (the 7th invocation, index 6) exits with
code `c`. -/
def gitInitFailsOracle (c : Nat) : Nat → Outcome := fun n =>
  if n = 5 then .exit 1 else if n = 6 then .exit c else .exit 0

/-- Oracle for a world where the three tool probes succeed and the
`git --version` probe (5th invocation, index 4) cannot execute. -/
def noGitOracle : Nat → Outcome := fun n => if n = 4 then .execFailure else .exit 0

/-- Oracle for a world where everything is installed and the repository
exists, `pre-commit install` (8th invocation, index 7) exits with `c₁`
and `nbautoexport configure` (10th invocation, index 9) exits with
`c₂`. -/
def hooksFailOracle (c₁ c₂ : Nat) : Nat → Outcome := fun n =>
  if n = 7 then .exit c₁ else if n = 9 then .exit c₂ else .exit 0

/-- Oracle for a fully provisioned world: every invocation exits 0. -/
def allOkOracle : Nat → Outcome := fun _ => .exit 0

/-- Formalization of the claim of C9: every command in the invocation
trace has a matching echo line (fixed prefix followed by the
space-joined command) in the console output. -/
def everyCmdEchoed (st : St) : Prop :=
  ∀ cmd ∈ st.cmds, (">>> " ++ String.intercalate " " cmd) ∈ st.output

instance (st : St) : Decidable (everyCmdEchoed st) := by
  unfold everyCmdEchoed; infer_instance

/-- Trace of `ensure_pip_packages` when all probes report exit code 0:
the pip self-upgrade plus exactly the three probe commands, in order,
and nothing else (no install command is issued). -/
theorem ensure_pip_packages_all_ok (pyexe : String) (st : St)
    (h : ∀ n, st.oracle n = .exit 0) :
    ensure_pip_packages pyexe st = .ok ()
      { st with idx := st.idx + 4, output := st.output ++ [">>> " ++ String.intercalate " " [pyexe, "-m", "pip", "install", "-U", "pip"], ">>> pre-commit already available", ">>> nbstripout already available", ">>> nbautoexport already available"], cmds := st.cmds ++ [[pyexe, "-m", "pip", "install", "-U", "pip"], ["pre-commit", "--version"], [pyexe, "-c", "import nbstripout"], ["nbautoexport", "--help"]] } := by
  simp [ensure_pip_packages, ensureLoop, ensureStep, needed, has_cmd, run, pr, subproc,
    pip_install, M.bind, M.pure, h]

/-- C1: for every command and every non-zero exit code of its child
process, `run` with `check = true` terminates the whole process with
exactly that exit code, while with `check = false` it returns the exit
code to the caller and execution continues; in particular a non-zero
exit of `git init` (run with `check = true` by `ensure_git_repo`)
becomes the script's final exit code unchanged. -/
theorem run_exit_code_propagation :
    (∀ (cmd : List String) (st : St) (c : Nat), c ≠ 0 → st.oracle st.idx = .exit c →
      run cmd true st = .exit (.code c)
        { st with idx := st.idx + 1,
                  output := st.output ++ [">>> " ++ String.intercalate " " cmd],
                  cmds := st.cmds ++ [cmd] }) ∧
    (∀ (cmd : List String) (st : St) (c : Nat), st.oracle st.idx = .exit c →
      run cmd false st = .ok c
        { st with idx := st.idx + 1,
                  output := st.output ++ [">>> " ++ String.intercalate " " cmd],
                  cmds := st.cmds ++ [cmd] }) ∧
    (∀ c : Nat, c ≠ 0 →
      exitCodeOf (runScript "python3" (gitInitFailsOracle c) none) = c) := by
  refine ⟨?_, ?_, ?_⟩
  · intro cmd st c hc ho
    simp [run, pr, subproc, M.bind, raiseSystemExit, ho, hc]
  · intro cmd st c ho
    simp [run, pr, subproc, M.bind, M.pure, ho]
  · intro c hc
    obtain ⟨c', rfl⟩ : ∃ c', c = c' + 1 :=
      ⟨c - 1, (Nat.succ_pred_eq_of_pos (Nat.pos_of_ne_zero hc)).symm⟩
    simp [runScript, main, ensure_pip_packages, ensureLoop, ensureStep, needed, has_cmd,
      run, pr, subproc, pip_install, M.bind, M.pure, ensure_git_repo, write_precommit_config,
      install_hooks_and_configure, raiseSystemExit, initSt, exitCodeOf, gitInitFailsOracle,
      writeCfg, cfgExistsM]

theorem run_exit_code_propagation_witness :
    (∃ st', run ["git", "init"] true (initSt (fun _ => .exit 7) none) = .exit (.code 7) st') ∧
    (∃ st', run ["git", "init"] false (initSt (fun _ => .exit 7) none) = .ok 7 st') ∧
    exitCodeOf (runScript "python3" (gitInitFailsOracle 7) none) = 7 :=
  ⟨⟨_, run_exit_code_propagation.1 ["git", "init"] (initSt (fun _ => .exit 7) none) 7
      (by decide) rfl⟩,
   ⟨_, run_exit_code_propagation.2.1 ["git", "init"] (initSt (fun _ => .exit 7) none) 7 rfl⟩,
   run_exit_code_propagation.2.2 7 (by decide)⟩

/-- C2: when `.pre-commit-config.yaml` already exists, the writer logs
and returns without writing: the file content is byte-identical before
and after, whatever it was (no content comparison, no merge, no
overwrite), and no command is invoked. -/
theorem write_precommit_config_idempotent (st : St) (s : String) (h : st.cfg = some s) :
    ∃ st', write_precommit_config st = .ok () st' ∧ st'.cfg = some s ∧
      st'.cmds = st.cmds ∧ st'.idx = st.idx ∧
      st'.output = st.output ++ [">>> .pre-commit-config.yaml already exists"] := by
  refine ⟨{ st with output := st.output ++ [">>> .pre-commit-config.yaml already exists"] },
    ?_, h, rfl, rfl, rfl⟩
  simp [write_precommit_config, cfgExistsM, M.bind, pr, h]

theorem write_precommit_config_idempotent_witness :
    ∃ st', write_precommit_config (initSt (fun _ => .exit 0) (some "old")) = .ok () st' ∧
      st'.cfg = some "old" ∧
      st'.cmds = (initSt (fun _ => .exit 0) (some "old")).cmds ∧
      st'.idx = (initSt (fun _ => .exit 0) (some "old")).idx ∧
      st'.output = (initSt (fun _ => .exit 0) (some "old")).output ++
        [">>> .pre-commit-config.yaml already exists"] :=
  write_precommit_config_idempotent (initSt (fun _ => .exit 0) (some "old")) "old" rfl

/-- C3: if the `git --version` probe fails (execution failure or
non-zero exit), `ensure_git_repo` aborts at once with the dedicated
message "ERROR: git is not installed or not in PATH." — an
`ExitKind.msg`, distinct from the generic `ExitKind.code` of a failed
checked command — having invoked nothing beyond the probe itself; at
the script level the process exit code is the non-zero 1, the config
file is untouched and neither repository detection nor initialization
nor any later step runs. -/
theorem git_missing_fatal :
    (∀ st : St, (st.oracle st.idx = .execFailure ∨ ∃ c, c ≠ 0 ∧ st.oracle st.idx = .exit c) →
      ensure_git_repo st =
        .exit (.msg "ERROR: git is not installed or not in PATH.")
          { st with idx := st.idx + 1, cmds := st.cmds ++ [["git", "--version"]] }) ∧
    (∀ cfg : Option String,
      runScript "python3" noGitOracle cfg =
        .exit (.msg "ERROR: git is not installed or not in PATH.")
          (Res.state (runScript "python3" noGitOracle cfg)) ∧
      exitCodeOf (runScript "python3" noGitOracle cfg) = 1 ∧
      (Res.state (runScript "python3" noGitOracle cfg)).cfg = cfg ∧
      (Res.state (runScript "python3" noGitOracle cfg)).cmds =
        [["python3", "-m", "pip", "install", "-U", "pip"], ["pre-commit", "--version"],
         ["python3", "-c", "import nbstripout"], ["nbautoexport", "--help"],
         ["git", "--version"]]) := by
  constructor
  · intro st h
    rcases h with ho | ⟨c, hc, ho⟩
    · simp [ensure_git_repo, has_cmd, subproc, M.bind, M.pure, raiseSystemExit, ho]
    · obtain ⟨c', rfl⟩ : ∃ c', c = c' + 1 :=
        ⟨c - 1, (Nat.succ_pred_eq_of_pos (Nat.pos_of_ne_zero hc)).symm⟩
      simp [ensure_git_repo, has_cmd, subproc, M.bind, M.pure, raiseSystemExit, ho]
  · intro cfg
    refine ⟨?_, ?_, ?_, ?_⟩ <;>
      simp [runScript, main, ensure_pip_packages, ensureLoop, ensureStep, needed, has_cmd,
        run, pr, subproc, pip_install, M.bind, M.pure, ensure_git_repo,
        write_precommit_config, install_hooks_and_configure, raiseSystemExit, initSt,
        exitCodeOf, noGitOracle, writeCfg, cfgExistsM, Res.state]

theorem git_missing_fatal_witness :
    (ensure_git_repo (initSt (fun _ => .execFailure) none) =
      .exit (.msg "ERROR: git is not installed or not in PATH.")
        { initSt (fun _ => .execFailure) none with idx := 1, cmds := [["git", "--version"]] }) ∧
    exitCodeOf (runScript "python3" noGitOracle (some "x")) = 1 :=
  ⟨git_missing_fatal.1 (initSt (fun _ => .execFailure) none) (Or.inl rfl),
   (git_missing_fatal.2 (some "x")).2.1⟩

/-- C4: as long as every subprocess invocation actually runs (exits
with some code), `install_hooks_and_configure` always returns normally
— a non-zero exit of `pre-commit install` or of `nbautoexport
configure` never terminates the run, since both are invoked with
`check = false`; at the script level, for every pair of exit codes of
those two commands, the run completes with exit code 0 and its last
console line is the final completion message. -/
theorem nonmandatory_failures_never_fatal :
    (∀ st : St, (∀ n, ∃ c, st.oracle n = .exit c) →
      (install_hooks_and_configure st).isOk = true) ∧
    (∀ c₁ c₂ : Nat, ∀ s : String,
      exitCodeOf (runScript "python3" (hooksFailOracle c₁ c₂) (some s)) = 0 ∧
      (Res.state (runScript "python3" (hooksFailOracle c₁ c₂) (some s))).output.getLast? =
        some ">>> git_tools done") := by
  constructor
  · intro st h
    obtain ⟨c1, h1⟩ := h st.idx
    rcases c1 with _ | c1
    · obtain ⟨c2, h2⟩ := h (st.idx + 1)
      obtain ⟨c3, h3⟩ := h (st.idx + 2)
      rcases c3 with _ | c3
      · obtain ⟨c4, h4⟩ := h (st.idx + 3)
        simp [install_hooks_and_configure, has_cmd, run, pr, subproc, M.bind, M.pure,
          raiseSystemExit, Res.isOk, h1, h2, h3, h4]
      · simp [install_hooks_and_configure, has_cmd, run, pr, subproc, M.bind, M.pure,
          raiseSystemExit, Res.isOk, h1, h2, h3]
    · obtain ⟨c3, h3⟩ := h (st.idx + 1)
      rcases c3 with _ | c3
      · obtain ⟨c4, h4⟩ := h (st.idx + 2)
        simp [install_hooks_and_configure, has_cmd, run, pr, subproc, M.bind, M.pure,
          raiseSystemExit, Res.isOk, h1, h3, h4]
      · simp [install_hooks_and_configure, has_cmd, run, pr, subproc, M.bind, M.pure,
          raiseSystemExit, Res.isOk, h1, h3]
  · intro c₁ c₂ s
    constructor <;>
      simp [runScript, main, ensure_pip_packages, ensureLoop, ensureStep, needed, has_cmd,
        run, pr, subproc, pip_install, M.bind, M.pure, ensure_git_repo,
        write_precommit_config, install_hooks_and_configure, raiseSystemExit, initSt,
        exitCodeOf, hooksFailOracle, writeCfg, cfgExistsM, Res.state]

theorem nonmandatory_failures_never_fatal_witness :
    (install_hooks_and_configure (initSt (fun _ => .exit 3) none)).isOk = true ∧
    exitCodeOf (runScript "python3" (hooksFailOracle 3 5) (some "x")) = 0 :=
  ⟨nonmandatory_failures_never_fatal.1 (initSt (fun _ => .exit 3) none) (fun _ => ⟨3, rfl⟩),
   (nonmandatory_failures_never_fatal.2 3 5 "x").1⟩

/-- C5: when a tool's availability probe exits 0, the loop body logs
"already available" and invokes nothing but the probe itself (no
install command); and when the `git rev-parse --is-inside-work-tree`
probe succeeds after the `git --version` probe, `ensure_git_repo`
invokes exactly those two probes and never `git init` — detection and
initialization are mutually exclusive branches. -/
theorem skip_when_present :
    (∀ (pyexe pkg : String) (probe : List String) (st : St), st.oracle st.idx = .exit 0 →
      ensureStep pyexe pkg probe st = .ok ()
        { st with idx := st.idx + 1, output := st.output ++ [">>> " ++ pkg ++ " already available"], cmds := st.cmds ++ [if probe.headD "" ≠ "python" then probe else [pyexe, "-c", probe.getD 2 ""]] }) ∧
    (∀ st : St, st.oracle st.idx = .exit 0 → st.oracle (st.idx + 1) = .exit 0 →
      ensure_git_repo st = .ok ()
        { st with idx := st.idx + 2, output := st.output ++ [">>> git already initialized"], cmds := st.cmds ++ [["git", "--version"], ["git", "rev-parse", "--is-inside-work-tree"]] }) := by
  constructor
  · intro pyexe pkg probe st h
    by_cases hp : probe.head?.getD "" = "python" <;>
      simp [ensureStep, has_cmd, subproc, M.bind, M.pure, pr, h, hp]
  · intro st h1 h2
    simp [ensure_git_repo, has_cmd, subproc, M.bind, M.pure, pr, h1, h2]

theorem skip_when_present_witness :
    (ensureStep "python3" "pre-commit" ["pre-commit", "--version"] (initSt allOkOracle none) =
      .ok () { initSt allOkOracle none with idx := 1, output := [">>> pre-commit already available"], cmds := [if (["pre-commit", "--version"] : List String).headD "" ≠ "python" then ["pre-commit", "--version"] else ["python3", "-c", ["pre-commit", "--version"].getD 2 ""]] }) ∧
    (ensure_git_repo (initSt allOkOracle none) =
      .ok () { initSt allOkOracle none with idx := 2, output := [">>> git already initialized"], cmds := [["git", "--version"], ["git", "rev-parse", "--is-inside-work-tree"]] }) :=
  ⟨skip_when_present.1 "python3" "pre-commit" ["pre-commit", "--version"]
      (initSt allOkOracle none) rfl,
   skip_when_present.2 (initSt allOkOracle none) rfl rfl⟩

/-- C6 counterexample: the claim says the probes are "a version-flag
invocation for two of the tools"; in fact only one probe carries
`--version` — the `nbautoexport` probe is a help-flag invocation
`nbautoexport --help`. -/
theorem needed_probe_flags_counterexample :
    (needed.filter (fun p => p.2.contains "--version")).length = 1 ∧
    (needed.getD 2 ("", [])).2 = ["nbautoexport", "--help"] ∧
    "--version" ∉ (needed.getD 2 ("", [])).2 := by decide

/-- C6 amended: the dependency ensurer probes exactly three tools in
the fixed sequential order pre-commit, nbstripout, nbautoexport; the
probes are a version-flag invocation for pre-commit, a language-level
module-import check for nbstripout, and a help-flag invocation for
nbautoexport — and in an all-available world exactly those three probe
commands (after the pip self-upgrade) are issued, in that order. -/
theorem needed_probes_order :
    needed = [("pre-commit", ["pre-commit", "--version"]),
      ("nbstripout", ["python", "-c", "import nbstripout"]),
      ("nbautoexport", ["nbautoexport", "--help"])] ∧
    (∀ (pyexe : String) (st : St), (∀ n, st.oracle n = .exit 0) →
      ∃ st', ensure_pip_packages pyexe st = .ok () st' ∧
        st'.cmds = st.cmds ++ [[pyexe, "-m", "pip", "install", "-U", "pip"],
          ["pre-commit", "--version"], [pyexe, "-c", "import nbstripout"],
          ["nbautoexport", "--help"]]) := by
  refine ⟨rfl, ?_⟩
  intro pyexe st h
  exact ⟨_, ensure_pip_packages_all_ok pyexe st h, rfl⟩

theorem needed_probes_order_witness :
    ∃ st', ensure_pip_packages "python3" (initSt allOkOracle none) = .ok () st' ∧
      st'.cmds = (initSt allOkOracle none).cmds ++ [["python3", "-m", "pip", "install", "-U", "pip"],
        ["pre-commit", "--version"], ["python3", "-c", "import nbstripout"],
        ["nbautoexport", "--help"]] :=
  needed_probes_order.2 "python3" (initSt allOkOracle none) (fun _ => rfl)

/-- C7: `has_cmd` always returns normally — it never raises and never
terminates the process; it returns `true` exactly when the probed
command executes and exits zero, and `false` on any non-zero exit or
any execution failure (e.g. binary not found). -/
theorem has_cmd_semantics (cmd : List String) (st : St) :
    ∃ b st', has_cmd cmd st = .ok b st' ∧
      (b = true ↔ st.oracle st.idx = .exit 0) ∧
      st'.cmds = st.cmds ++ [cmd] ∧ st'.output = st.output := by
  rcases ho : st.oracle st.idx with c | _
  · rcases c with _ | c
    · exact ⟨true, { st with idx := st.idx + 1, cmds := st.cmds ++ [cmd] },
        by simp [has_cmd, M.bind, subproc, M.pure, ho], by simp [ho], rfl, rfl⟩
    · exact ⟨false, { st with idx := st.idx + 1, cmds := st.cmds ++ [cmd] },
        by simp [has_cmd, M.bind, subproc, M.pure, ho], by simp [ho], rfl, rfl⟩
  · exact ⟨false, { st with idx := st.idx + 1, cmds := st.cmds ++ [cmd] },
      by simp [has_cmd, M.bind, subproc, M.pure, ho], by simp [ho], rfl, rfl⟩

/-- C8: when `.pre-commit-config.yaml` is absent, the writer creates it
with exactly the fixed literal content — a repos list with the single
repo https://github.com/kynan/nbstripout pinned to rev 0.6.1 and the
single hook id nbstripout — independent of any input, invoking no
command. -/
theorem write_precommit_config_writes_literal (st : St) (h : st.cfg = none) :
    ∃ st', write_precommit_config st = .ok () st' ∧
      st'.cfg = some ("repos:\n  - repo: https://github.com/kynan/nbstripout\n    rev: 0.6.1\n    hooks:\n      - id: nbstripout\n") ∧
      st'.cmds = st.cmds ∧ st'.idx = st.idx ∧
      st'.output = st.output ++ [">>> wrote .pre-commit-config.yaml"] := by
  refine ⟨{ st with cfg := some precommitConfigText, output := st.output ++ [">>> wrote .pre-commit-config.yaml"] }, ?_, rfl, rfl, rfl, rfl⟩
  simp [write_precommit_config, cfgExistsM, M.bind, pr, writeCfg, h]

theorem write_precommit_config_writes_literal_witness :
    ∃ st', write_precommit_config (initSt (fun _ => .exit 0) none) = .ok () st' ∧
      st'.cfg = some ("repos:\n  - repo: https://github.com/kynan/nbstripout\n    rev: 0.6.1\n    hooks:\n      - id: nbstripout\n") ∧
      st'.cmds = (initSt (fun _ => .exit 0) none).cmds ∧
      st'.idx = (initSt (fun _ => .exit 0) none).idx ∧
      st'.output = (initSt (fun _ => .exit 0) none).output ++ [">>> wrote .pre-commit-config.yaml"] :=
  write_precommit_config_writes_literal (initSt (fun _ => .exit 0) none) rfl

/-- C9 counterexample: the claim that every invoked external command —
including availability probes — is echoed with a fixed prefix before
execution is false: in a fully provisioned world the run invokes the
probe commands (e.g. `pre-commit --version`) but its console output
contains no echo line for them, because `has_cmd` runs its command
without printing. -/
theorem probes_not_echoed_counterexample :
    ¬ everyCmdEchoed (Res.state (runScript "python3" allOkOracle (some "x"))) := by decide

/-- C9 amended: every command invoked through the runner `run` is
echoed with the fixed prefix ">>> " (followed by the space-joined
command) before it executes, and `run` records exactly that command;
probe commands invoked through `has_cmd`, by contrast, are recorded in
the trace but produce no console output at all. -/
theorem run_echoes_probes_do_not :
    (∀ (cmd : List String) (chk : Bool) (st : St),
      (Res.state (run cmd chk st)).output =
        st.output ++ [">>> " ++ String.intercalate " " cmd] ∧
      (Res.state (run cmd chk st)).cmds = st.cmds ++ [cmd]) ∧
    (∀ (cmd : List String) (st : St),
      (Res.state (has_cmd cmd st)).output = st.output ∧
      (Res.state (has_cmd cmd st)).cmds = st.cmds ++ [cmd]) := by
  constructor
  · intro cmd chk st
    rcases ho : st.oracle st.idx with c | _
    · rcases c with _ | c <;> rcases chk <;>
        simp [run, pr, subproc, M.bind, M.pure, raiseSystemExit, Res.state, ho]
    · rcases chk <;>
        simp [run, pr, subproc, M.bind, M.pure, raiseSystemExit, Res.state, ho]
  · intro cmd st
    rcases ho : st.oracle st.idx with c | _
    · rcases c with _ | c <;> simp [has_cmd, subproc, M.bind, M.pure, Res.state, ho]
    · simp [has_cmd, subproc, M.bind, M.pure, Res.state, ho]

/-- C10: whenever a probe's first element is the literal "python", the
loop body invokes `[sys.executable, "-c", probe[2]]` instead of the
probe itself — the first command it records is headed by `pyexe`; and
in a fully provisioned world with `pyexe` distinct from "python", the
nbstripout import probe issued is exactly
`[pyexe, "-c", "import nbstripout"]` and no freshly issued command is
headed by the literal "python". -/
theorem python_probe_replaced :
    (∀ (pyexe pkg : String) (probe : List String) (st : St), probe.headD "" = "python" →
      ∃ rest, (Res.state (ensureStep pyexe pkg probe st)).cmds =
        st.cmds ++ [pyexe, "-c", probe.getD 2 ""] :: rest) ∧
    (∀ (pyexe : String) (st : St), pyexe ≠ "python" → (∀ n, st.oracle n = .exit 0) →
      ∃ st', ensure_pip_packages pyexe st = .ok () st' ∧
        [pyexe, "-c", "import nbstripout"] ∈ st'.cmds ∧
        ∀ cmd ∈ st'.cmds, cmd ∉ st.cmds → cmd.headD "" ≠ "python") := by
  constructor
  · intro pyexe pkg probe st hp
    rw [List.headD_eq_head?] at hp
    rcases ho : st.oracle st.idx with c | _
    · rcases c with _ | c
      · exact ⟨[], by simp [ensureStep, has_cmd, pip_install, run, pr, subproc, M.bind,
          M.pure, raiseSystemExit, Res.state, ho, hp]⟩
      · rcases ho2 : st.oracle (st.idx + 1) with c2 | _
        · rcases c2 with _ | c2 <;>
            exact ⟨[[pyexe, "-m", "pip", "install", "-U", pkg]],
              by simp [ensureStep, has_cmd, pip_install, run, pr, subproc, M.bind,
                M.pure, raiseSystemExit, Res.state, ho, ho2, hp]⟩
        · exact ⟨[[pyexe, "-m", "pip", "install", "-U", pkg]],
            by simp [ensureStep, has_cmd, pip_install, run, pr, subproc, M.bind,
              M.pure, raiseSystemExit, Res.state, ho, ho2, hp]⟩
    · rcases ho2 : st.oracle (st.idx + 1) with c2 | _
      · rcases c2 with _ | c2 <;>
          exact ⟨[[pyexe, "-m", "pip", "install", "-U", pkg]],
            by simp [ensureStep, has_cmd, pip_install, run, pr, subproc, M.bind,
              M.pure, raiseSystemExit, Res.state, ho, ho2, hp]⟩
      · exact ⟨[[pyexe, "-m", "pip", "install", "-U", pkg]],
          by simp [ensureStep, has_cmd, pip_install, run, pr, subproc, M.bind,
            M.pure, raiseSystemExit, Res.state, ho, ho2, hp]⟩
  · intro pyexe st hpy h
    refine ⟨_, ensure_pip_packages_all_ok pyexe st h, by simp, ?_⟩
    intro cmd hmem hnot
    simp at hmem
    rcases hmem with hmem | hmem
    · exact absurd hmem hnot
    · rcases hmem with rfl | rfl | rfl | rfl <;> simp [hpy]

theorem python_probe_replaced_witness :
    (∃ rest, (Res.state (ensureStep "python3" "nbstripout" ["python", "-c", "import nbstripout"]
        (initSt allOkOracle none))).cmds =
      (initSt allOkOracle none).cmds ++
        ["python3", "-c", (["python", "-c", "import nbstripout"] : List String).getD 2 ""] :: rest) ∧
    (∃ st', ensure_pip_packages "python3" (initSt allOkOracle none) = .ok () st' ∧
      ["python3", "-c", "import nbstripout"] ∈ st'.cmds ∧
      ∀ cmd ∈ st'.cmds, cmd ∉ (initSt allOkOracle none).cmds → cmd.headD "" ≠ "python") :=
  ⟨python_probe_replaced.1 "python3" "nbstripout" ["python", "-c", "import nbstripout"]
      (initSt allOkOracle none) rfl,
   python_probe_replaced.2 "python3" (initSt allOkOracle none) (by decide) (fun _ => rfl)⟩

end GitTools
